import Mathlib

/-!
Verification of the eRechnung PDF/A-3 XML extractor against its design notes.

The Rust sources operate on a byte buffer that is immediately converted with
`String::from_utf8_lossy` and then scanned with ASCII string patterns only.
We model the buffer as its character sequence (`List Char`); on the ASCII
inputs every pattern uses, this is byte-for-byte the original buffer, and
`str::find`/`str::contains` become first-occurrence substring search over the
list.  Rust locals are kept as `let` bindings where that helps readability.
-/

set_option maxRecDepth 4000

/-- Convert a string literal to the character-list document model. -/
def toL (s : String) : List Char := s.toList

/-- First index at which `pat` occurs as a contiguous sublist of `hay`
(Rust `str::find`): `none` when absent. -/
def findSub : List Char → List Char → Option Nat
  | [], pat => if pat.isEmpty then some 0 else none
  | c :: rest, pat =>
      if pat.isPrefixOf (c :: rest) then some 0
      else (findSub rest pat).map (· + 1)

/-- Substring occurrence test (Rust `str::contains`). -/
def contains (hay pat : List Char) : Bool := (findSub hay pat).isSome

/-- ASCII whitespace used by `str::trim` on the inputs at hand. -/
def isWs (c : Char) : Bool := c = ' ' || c = '\t' || c = '\n' || c = '\r'

/-- Rust `str::trim`: strip whitespace from both ends. -/
def trim (s : List Char) : List Char :=
  ((s.dropWhile isWs).reverse.dropWhile isWs).reverse

/-- Rust `str::to_lowercase`, restricted to its ASCII action (the only one the
comparisons against ".xml" / "factur-x.xml" exercise). -/
def toLowerAscii (s : List Char) : List Char := s.map Char.toLower

/-- `Vec::join(", ")` from `service.rs`. -/
def joinComma (l : List (List Char)) : List Char := (l.intersperse (toL ", ")).flatten

/-- `errors.rs`: the `PDFError` enum (the two `From`-only IO/UTF-8 variants are
never constructed by the scanning code and are omitted). -/
inductive PDFError where
  | InvalidPDF
  | NotPDFA3
  | NoXMLFile
  | ExtractionFailed
deriving DecidableEq, Repr

deriving instance DecidableEq for Except

/-- `errors.rs`: `Display` string of `PDFError::InvalidPDF`. -/
def errInvalidPDF : List Char := toL "Not a valid PDF file"

/-- `errors.rs`: `Display` string of `PDFError::NotPDFA3`. -/
def errNotPDFA3 : List Char := toL "PDF is not in PDF/A-3 format"

/-- `errors.rs`: `Display` string of `PDFError::NoXMLFile`. -/
def errNoXMLFile : List Char := toL "No embedded XML-file"

/-- `errors.rs`: `Display` string of `PDFError::ExtractionFailed`. -/
def errExtractionFailed : List Char := toL "XML file found but could not extract content"

/-- `models.rs`: `ErrorResponse`. -/
structure ErrorResponse where
  file_status : List Char
  embedded_files : Option (List Char)
deriving DecidableEq, Repr

/-- `models.rs`: `SuccessResponse`. -/
structure SuccessResponse where
  file_status : List Char
  embedded_files : List Char
  xml_content : List Char
  xml_filename : List Char
deriving DecidableEq, Repr

/-- `pdf.rs` lines 41-57, `PDFA3Validator::validate`: signature check, then a
whole-buffer substring search for any of four textual PDF/A-3 markers. -/
def validate (doc : List Char) : Except PDFError Unit :=
  if doc.length < 5 ∨ doc.take 5 ≠ toL "%PDF-" then
    .error .InvalidPDF
  else if !(contains doc (toL "PDF/A-3") ||
            contains doc (toL "pdfa:part>3") ||
            contains doc (toL "pdfaid:part>3") ||
            contains doc (toL "pdfaid:conformance")) then
    .error .NotPDFA3
  else
    .ok ()

/-- `pdf_worker.rs` lines 8-20, the second `PDFA3Validator::validate`: no
signature check, and a single exact marker. -/
def pdf_worker_validate (doc : List Char) : Except PDFError Unit :=
  if !(contains doc (toL "<pdfaid:part>3</pdfaid:part>")) then
    .error .NotPDFA3
  else
    .ok ()

/-- State of the literal-string scan over the names-array content
(`in_string`, `current_string`, and the accumulated names). -/
structure NamesScanState where
  inString : Bool
  currentString : List Char
  acc : List (List Char)
deriving DecidableEq, Repr

/-- One step of the `for ch in names_content.chars()` loop of
`find_embedded_files` (`pdf.rs` lines 99-116): `(` opens a fresh literal,
`)` pushes a non-empty literal, other characters extend an open literal. -/
def nstep (st : NamesScanState) (ch : Char) : NamesScanState :=
  if ch = '(' then
    { inString := true, currentString := [], acc := st.acc }
  else if ch = ')' then
    if st.inString && !st.currentString.isEmpty then
      { inString := false, currentString := st.currentString,
        acc := st.acc ++ [st.currentString] }
    else
      { st with inString := false }
  else if st.inString then
    { st with currentString := st.currentString ++ [ch] }
  else
    st

/-- The literal-string scan applied to a names-array slice. -/
def scanNames (content : List Char) : List (List Char) :=
  (content.foldl nstep ⟨false, [], []⟩).acc

/-- `pdf.rs` lines 81-118 (= `pdf_worker.rs` 28-66 = `extract_xml.rs` 81-118),
`EmbeddedFilesExtractor::find_embedded_files`: fail fast without
`/EmbeddedFiles`; then slice from the first `/Names` anywhere in the buffer
(`find("/Names").unwrap_or(0)`), take the first `[`...`]` region and scan its
literal strings. -/
def find_embedded_files (doc : List Char) : List (List Char) :=
  if !(contains doc (toL "/EmbeddedFiles")) then []
  else
    let names_start := (findSub doc (toL "/Names")).getD 0
    let names_section := doc.drop names_start
    match findSub names_section (toL "[") with
    | none => []
    | some array_start =>
      match findSub (names_section.drop array_start) (toL "]") with
      | none => []
      | some array_end =>
        scanNames ((names_section.drop (array_start + 1)).take (array_end - 1))

/-- The first-`[`...`]`-array scan taken on its own, starting from a given
section of the document (the tail of `find_embedded_files` after its
`/Names` slicing). -/
def scanFirstArray (sect : List Char) : List (List Char) :=
  match findSub sect (toL "[") with
  | none => []
  | some array_start =>
    match findSub (sect.drop array_start) (toL "]") with
    | none => []
    | some array_end =>
      scanNames ((sect.drop (array_start + 1)).take (array_end - 1))

/-- The names-array search as claim C3 words it, for comparison with
`find_embedded_files`: the array scanned is the first `[...]` following the
first `/Names` token located at or after the `/EmbeddedFiles` marker. -/
def find_embedded_files_claim (doc : List Char) : List (List Char) :=
  match findSub doc (toL "/EmbeddedFiles") with
  | none => []
  | some emb =>
    match findSub (doc.drop emb) (toL "/Names") with
    | none => []
    | some noff => scanFirstArray (doc.drop (emb + noff))

/-- `service.rs` line 32: `.xml`-suffix selection predicate,
`name.to_lowercase().ends_with(".xml")`. -/
def endsWithXml (name : List Char) : Bool :=
  (toL ".xml").isSuffixOf (toLowerAscii name)

/-- `service.rs` lines 48-52: the invoice-content ranking predicate. -/
def isInvoiceContent (c : List Char) : Bool :=
  contains c (toL "<rsm:") || contains c (toL "<ubl:") || contains c (toL "<Invoice")

/-- `pdf_worker.rs` lines 93-96, `is_xml_content`. -/
def is_xml_content (text : List Char) : Bool := contains text (toL "<?xml")

/-- `pdf_worker.rs` lines 69-91, `carveout_xml_from_pdf`: lopdf's document
loading and stream decompression are external-library effects, so the decoded
stream contents are taken as the input; the repository's own per-stream
filtering (`is_xml_content`) is embedded as written. -/
def carveout_xml_from_pdf (decodedStreams : List (List Char)) : List (List Char) :=
  decodedStreams.filter is_xml_content

/-- `service.rs` lines 10-76, `ERechnungService::process_pdf`.  The call
`extract_xml_from_pdf_bytes(&pdf_bytes)` (imported from `crate::extract_xml`,
whose definition is absent from the sources; `pdf_worker::carveout_xml_from_pdf`
has the same `Result<Vec<String>>` shape) is abstracted as the
`extractResult` argument: everything `process_pdf` does with it is embedded. -/
def process_pdf (doc : List Char) (extractResult : Except Unit (List (List Char))) :
    Except ErrorResponse SuccessResponse :=
  if doc.length < 5 ∨ doc.take 5 ≠ toL "%PDF-" then
    .error ⟨errInvalidPDF, none⟩
  else
    let embedded_files := find_embedded_files doc
    if embedded_files.isEmpty then
      .error ⟨errNoXMLFile, none⟩
    else
      match embedded_files.find? endsWithXml with
      | none => .error ⟨errNoXMLFile, some (joinComma embedded_files)⟩
      | some xml_file =>
        match extractResult with
        | .error _ => .error ⟨errExtractionFailed, some (joinComma embedded_files)⟩
        | .ok xml_contents =>
          match (xml_contents.find? isInvoiceContent).orElse (fun _ => xml_contents.head?) with
          | none => .error ⟨errExtractionFailed, some (joinComma embedded_files)⟩
          | some xml_content =>
            .ok ⟨(if toLowerAscii xml_file = toL "factur-x.xml" then toL "Success"
                  else toL "XML is not Factur-x.xml"),
                 joinComma embedded_files, xml_content, xml_file⟩

/-- The trimmed-content acceptance gate inlined at `extract_xml.rs`
lines 156-159. -/
def xmlGate (t : List Char) : Bool :=
  (toL "<?xml").isPrefixOf t || (toL "<rsm:").isPrefixOf t ||
  (toL "<ubl:").isPrefixOf t || (toL "<Invoice").isPrefixOf t

/-- `extract_xml.rs` lines 122-171, `EmbeddedFilesExtractor::extract_xml_content`:
window of ±2000 around the literal `factur-x.xml`, first `stream\n` in the
window, first `endstream` after it, trim, then the XML-prefix gate. -/
def extract_xml_content (doc : List Char) : Option (List Char) :=
  match findSub doc (toL "factur-x.xml") with
  | none => none
  | some filespec_pos =>
    let search_start := filespec_pos - 2000
    let search_end := min (filespec_pos + 2000) doc.length
    if search_start ≥ search_end then none
    else
      match findSub ((doc.drop search_start).take (search_end - search_start))
              (toL "stream\n") with
      | none => none
      | some stream_start =>
        let abs_stream_start := search_start + stream_start + 7
        if abs_stream_start ≥ doc.length then none
        else
          match findSub (doc.drop abs_stream_start) (toL "endstream") with
          | none => none
          | some end_offset =>
            if abs_stream_start + end_offset ≤ abs_stream_start ∨
               abs_stream_start + end_offset > doc.length then none
            else
              let trimmed := trim ((doc.drop abs_stream_start).take end_offset)
              if xmlGate trimmed then some trimmed else none

/-- The stream extractor as claim C4 words it, for comparison with
`extract_xml_content`: the same window/`stream`/`endstream` location, but
returning the whitespace-trimmed bytes strictly between the keywords with no
condition on their content. -/
def extract_stream_claim (doc : List Char) : Option (List Char) :=
  match findSub doc (toL "factur-x.xml") with
  | none => none
  | some filespec_pos =>
    let search_start := filespec_pos - 2000
    let search_end := min (filespec_pos + 2000) doc.length
    if search_start ≥ search_end then none
    else
      match findSub ((doc.drop search_start).take (search_end - search_start))
              (toL "stream\n") with
      | none => none
      | some stream_start =>
        let abs_stream_start := search_start + stream_start + 7
        if abs_stream_start ≥ doc.length then none
        else
          match findSub (doc.drop abs_stream_start) (toL "endstream") with
          | none => none
          | some end_offset =>
            if abs_stream_start + end_offset ≤ abs_stream_start ∨
               abs_stream_start + end_offset > doc.length then none
            else
              some (trim ((doc.drop abs_stream_start).take end_offset))

/-- The content classifier as claim C5 words it, for comparison: after
trimming, content qualifies if it starts with an XML declaration or one of
`<rsm:`, `<ubl:`, `<Invoice`, `<rdf:RDF`. -/
def looksLikeInvoiceXml_claim (s : List Char) : Bool :=
  (toL "<?xml").isPrefixOf (trim s) || (toL "<rsm:").isPrefixOf (trim s) ||
  (toL "<ubl:").isPrefixOf (trim s) || (toL "<Invoice").isPrefixOf (trim s) ||
  (toL "<rdf:RDF").isPrefixOf (trim s)

/-- The PDF/A-3 marker set as claim C2 words it, for comparison with
`validate`: the literal `PDF/A-3`, or `pdfaid:part` / `pdfaid:conformance`
equal to 3 in angle-bracket or attribute form. -/
def containsClaimMarkerC2 (doc : List Char) : Bool :=
  contains doc (toL "PDF/A-3") ||
  contains doc (toL "pdfaid:part>3") || contains doc (toL "pdfaid:part=\"3\"") ||
  contains doc (toL "pdfaid:conformance>3") || contains doc (toL "pdfaid:conformance=\"3\"")

/-- Helper: a buffer whose first five characters are the PDF signature has
length at least 5, so the `InvalidPDF` branch is not taken. -/
theorem sig_not_short {doc : List Char} (h : doc.take 5 = toL "%PDF-") :
    ¬(doc.length < 5 ∨ doc.take 5 ≠ toL "%PDF-") := by
  rintro (hlt | hne)
  · have hlen := congrArg List.length h
    rw [List.length_take] at hlen
    have h5 : (toL "%PDF-").length = 5 := rfl
    rw [h5] at hlen
    omega
  · exact hne h


/-- Helper: appending `(c :: rest).foldl` unfolds one scan step. -/
theorem scanNames_acc_aux (content : List Char) :
    ∀ st : NamesScanState, (∀ x ∈ st.acc, x ≠ []) →
      ∀ x ∈ (content.foldl nstep st).acc, x ≠ [] := by
  induction content with
  | nil => intro st h; exact h
  | cons c rest ih =>
    intro st h
    rw [List.foldl_cons]
    refine ih (nstep st c) ?_
    intro x hx
    unfold nstep at hx
    split at hx
    · exact h x hx
    · split at hx
      · split at hx
        · rename_i hg
          rcases List.mem_append.1 hx with h1 | h2
          · exact h x h1
          · have hx2 : x = st.currentString := by simpa using h2
            subst hx2
            intro hnil
            rw [hnil] at hg
            simp at hg
        · exact h x hx
      · split at hx
        · exact h x hx
        · exact h x hx

/-- C9: every name surfaced by `EmbeddedFilesExtractor::find_embedded_files`
is non-empty: the literal-string scan only pushes a name on `)` when the
current literal is non-empty, so empty `()` entries are dropped. -/
theorem C9_names_nonempty (doc : List Char) (name : List Char)
    (h : name ∈ find_embedded_files doc) : name ≠ [] := by
  simp only [find_embedded_files] at h
  split at h
  · simp at h
  · split at h
    · simp at h
    · split at h
      · simp at h
      · exact scanNames_acc_aux _ _ (by intro x hx; simp at hx) name h

/-- C9 witness: the single name parsed from a concrete buffer is non-empty. -/
theorem C9_names_nonempty_witness :
    toL "a" ∈ find_embedded_files (toL "/EmbeddedFiles /Names [(a)]") ∧ toL "a" ≠ [] :=
  ⟨by decide, C9_names_nonempty (toL "/EmbeddedFiles /Names [(a)]") (toL "a") (by decide)⟩

/-- C8: for every buffer under 5 bytes long or whose first five bytes differ
from `%PDF-` (in particular any 4-byte buffer), `ERechnungService::process_pdf`
returns the `InvalidPDF` error response and `PDFA3Validator::validate` returns
`InvalidPDF`. -/
theorem C8_invalid_input (doc : List Char) (ex : Except Unit (List (List Char)))
    (h : doc.length = 4 ∨ doc.length < 5 ∨ doc.take 5 ≠ toL "%PDF-") :
    process_pdf doc ex = .error ⟨errInvalidPDF, none⟩ ∧
    validate doc = .error PDFError.InvalidPDF := by
  have hcond : doc.length < 5 ∨ doc.take 5 ≠ toL "%PDF-" := by
    rcases h with h4 | h
    · left; omega
    · exact h
  exact ⟨by simp only [process_pdf, if_pos hcond], by simp only [validate, if_pos hcond]⟩

/-- C8 witness: the 4-byte buffer `abcd` yields the `InvalidPDF` error in both
the pipeline and the validator. -/
theorem C8_invalid_input_witness :
    process_pdf (toL "abcd") (.ok []) = .error ⟨errInvalidPDF, none⟩ ∧
    validate (toL "abcd") = .error PDFError.InvalidPDF :=
  C8_invalid_input (toL "abcd") (.ok []) (Or.inl (by decide))

/-- C2 counterexample: `%PDF-pdfaid:conformanceX` starts with the PDF
signature and contains none of the claim's recognized markers (no `PDF/A-3`
literal and no `pdfaid:part`/`pdfaid:conformance` equal to 3 in angle-bracket
or attribute form), yet `PDFA3Validator::validate` accepts it, because the
code matches any occurrence of the bare substring `pdfaid:conformance`
irrespective of its value. -/
theorem C2_marker_cex :
    (toL "%PDF-pdfaid:conformanceX").take 5 = toL "%PDF-" ∧
    containsClaimMarkerC2 (toL "%PDF-pdfaid:conformanceX") = false ∧
    validate (toL "%PDF-pdfaid:conformanceX") = .ok () := by decide

/-- C2 amended: for every buffer whose first five bytes equal the PDF
signature, `PDFA3Validator::validate` (pdf.rs) returns `NotPDFA3` if and only
if the buffer contains none of the four literal substrings `PDF/A-3`,
`pdfa:part>3`, `pdfaid:part>3`, `pdfaid:conformance`; matching is whole-buffer
substring search, with no attribute form and no value check on
`pdfaid:conformance`. -/
theorem C2_marker_iff (doc : List Char) (hsig : doc.take 5 = toL "%PDF-") :
    validate doc = .error PDFError.NotPDFA3 ↔
      (contains doc (toL "PDF/A-3") = false ∧
       contains doc (toL "pdfa:part>3") = false ∧
       contains doc (toL "pdfaid:part>3") = false ∧
       contains doc (toL "pdfaid:conformance") = false) := by
  simp only [validate, if_neg (sig_not_short hsig)]
  cases h1 : contains doc (toL "PDF/A-3") <;>
    cases h2 : contains doc (toL "pdfa:part>3") <;>
      cases h3 : contains doc (toL "pdfaid:part>3") <;>
        cases h4 : contains doc (toL "pdfaid:conformance") <;>
          simp [h1, h2, h3, h4]

/-- C2 witness: a signature-only buffer with no marker at all is rejected as
`NotPDFA3`. -/
theorem C2_marker_iff_witness :
    validate (toL "%PDF-x") = .error PDFError.NotPDFA3 :=
  (C2_marker_iff (toL "%PDF-x") (by decide)).mpr (by decide)

/-- C3 counterexample: with a `/Names [(a)]` occurring before the
`/EmbeddedFiles` marker and another `/Names [(b)]` after it, the code scans
the array of the first `/Names` anywhere in the buffer and returns `a`,
whereas the claim's reading (first `/Names` at or after `/EmbeddedFiles`)
yields `b`. -/
theorem C3_names_array_cex :
    find_embedded_files (toL "/Names [(a)] /EmbeddedFiles /Names [(b)]") = [toL "a"] ∧
    find_embedded_files_claim (toL "/Names [(a)] /EmbeddedFiles /Names [(b)]") = [toL "b"] ∧
    toL "a" ≠ toL "b" := by decide

/-- C3 amended: the embedded-file search fails fast (returns `[]`) when
`/EmbeddedFiles` is absent; when it is present, the names array scanned is the
first `[...]` following the first `/Names` token anywhere in the buffer
(position 0 when `/Names` is absent), which need not lie at or after the
`/EmbeddedFiles` marker. -/
theorem C3_fail_fast_first_names (doc : List Char) :
    (contains doc (toL "/EmbeddedFiles") = false → find_embedded_files doc = []) ∧
    (contains doc (toL "/EmbeddedFiles") = true →
      find_embedded_files doc =
        scanFirstArray (doc.drop ((findSub doc (toL "/Names")).getD 0))) := by
  constructor
  · intro h; simp [find_embedded_files, h]
  · intro h; simp [find_embedded_files, scanFirstArray, h]

/-- C3 witness: a buffer without `/EmbeddedFiles` yields no names. -/
theorem C3_fail_fast_first_names_witness :
    find_embedded_files (toL "hello") = [] :=
  (C3_fail_fast_first_names (toL "hello")).1 (by decide)

/-- C1 counterexample: a buffer with the PDF signature, no PDF/A-3 marker of
any recognized form, and an embedded `factur-x.xml` entry.
`PDFA3Validator::validate` rejects it as `NotPDFA3`, yet
`ERechnungService::process_pdf` succeeds and surfaces the embedded name: the
pipeline never invokes the validator, so extraction proceeds on a
non-conformant buffer. -/
theorem C1_no_validation_cex :
    validate (toL "%PDF- /EmbeddedFiles /Names [(factur-x.xml)]") =
      .error PDFError.NotPDFA3 ∧
    process_pdf (toL "%PDF- /EmbeddedFiles /Names [(factur-x.xml)]") (.ok [toL "<?xml"]) =
      .ok ⟨toL "Success", toL "factur-x.xml", toL "<?xml", toL "factur-x.xml"⟩ := by decide

/-- C1 amended: `ERechnungService::process_pdf` performs no PDF/A-3
conformance validation at all: every error response it can return carries the
`InvalidPDF`, `NoXMLFile` or `ExtractionFailed` status string and never the
`NotPDFA3` one. -/
theorem C1_no_conformance_check (doc : List Char) (ex : Except Unit (List (List Char)))
    (err : ErrorResponse) (h : process_pdf doc ex = .error err) :
    (err.file_status = errInvalidPDF ∨ err.file_status = errNoXMLFile ∨
     err.file_status = errExtractionFailed) ∧ err.file_status ≠ errNotPDFA3 := by
  simp only [process_pdf] at h
  split at h
  · obtain rfl : ErrorResponse.mk errInvalidPDF none = err := by simpa using h
    decide
  · split at h
    · obtain rfl : ErrorResponse.mk errNoXMLFile none = err := by simpa using h
      decide
    · split at h
      · obtain rfl : ErrorResponse.mk errNoXMLFile
            (some (joinComma (find_embedded_files doc))) = err := by simpa using h
        refine ⟨Or.inr (Or.inl rfl), ?_⟩
        show errNoXMLFile ≠ errNotPDFA3
        decide
      · split at h
        · obtain rfl : ErrorResponse.mk errExtractionFailed
              (some (joinComma (find_embedded_files doc))) = err := by simpa using h
          refine ⟨Or.inr (Or.inr rfl), ?_⟩
          show errExtractionFailed ≠ errNotPDFA3
          decide
        · split at h
          · obtain rfl : ErrorResponse.mk errExtractionFailed
                (some (joinComma (find_embedded_files doc))) = err := by simpa using h
            refine ⟨Or.inr (Or.inr rfl), ?_⟩
            show errExtractionFailed ≠ errNotPDFA3
            decide
          · simp at h

/-- C1 witness: the empty buffer errors with the `InvalidPDF` status, which is
one of the three reachable error statuses and is not `NotPDFA3`. -/
theorem C1_no_conformance_check_witness :
    ((ErrorResponse.mk errInvalidPDF none).file_status = errInvalidPDF ∨
     (ErrorResponse.mk errInvalidPDF none).file_status = errNoXMLFile ∨
     (ErrorResponse.mk errInvalidPDF none).file_status = errExtractionFailed) ∧
    (ErrorResponse.mk errInvalidPDF none).file_status ≠ errNotPDFA3 :=
  C1_no_conformance_check (toL "") (.ok []) ⟨errInvalidPDF, none⟩ (by decide)

/-- C7: for every buffer that passes the signature check, the pipeline selects
the first discovered name ending case-insensitively in `.xml`; with zero
discovered names it errors `NoXMLFile` with no name list, and with a non-empty
name list containing no `.xml` name it errors `NoXMLFile` carrying all
discovered names (comma-joined). -/
theorem C7_xml_selection (doc : List Char) (ex : Except Unit (List (List Char)))
    (hsig : doc.take 5 = toL "%PDF-") :
    (find_embedded_files doc = [] → process_pdf doc ex = .error ⟨errNoXMLFile, none⟩) ∧
    (find_embedded_files doc ≠ [] →
      (find_embedded_files doc).find? endsWithXml = none →
      process_pdf doc ex = .error ⟨errNoXMLFile, some (joinComma (find_embedded_files doc))⟩) ∧
    (∀ res, process_pdf doc ex = .ok res →
      (find_embedded_files doc).find? endsWithXml = some res.xml_filename) := by
  refine ⟨?_, ?_, ?_⟩
  · intro hempty
    simp [process_pdf, if_neg (sig_not_short hsig), hempty]
  · intro hne hfind
    simp only [process_pdf, if_neg (sig_not_short hsig)]
    rw [if_neg (by simpa [List.isEmpty_iff] using hne), hfind]
  · intro res h
    simp only [process_pdf, if_neg (sig_not_short hsig)] at h
    split at h
    · simp at h
    · split at h
      · simp at h
      · rename_i xml_file hfind
        split at h
        · simp at h
        · split at h
          · simp at h
          · obtain rfl : SuccessResponse.mk _ _ _ xml_file = res := by simpa using h
            simpa using hfind

/-- C7 witness: a signature-only buffer with no embedded files errors
`NoXMLFile` with no name list. -/
theorem C7_xml_selection_witness :
    process_pdf (toL "%PDF-x") (.ok []) = .error ⟨errNoXMLFile, none⟩ :=
  (C7_xml_selection (toL "%PDF-x") (.ok []) (by decide)).1 (by decide)

/-- C10: whenever `ERechnungService::process_pdf` succeeds, the returned
`xml_filename` ends case-insensitively in `.xml`, and `file_status` is exactly
`Success` when the lowercased filename equals `factur-x.xml` and exactly
`XML is not Factur-x.xml` otherwise. -/
theorem C10_success_shape (doc : List Char) (ex : Except Unit (List (List Char)))
    (res : SuccessResponse) (h : process_pdf doc ex = .ok res) :
    endsWithXml res.xml_filename = true ∧
    res.file_status = (if toLowerAscii res.xml_filename = toL "factur-x.xml"
                       then toL "Success" else toL "XML is not Factur-x.xml") := by
  simp only [process_pdf] at h
  split at h
  · simp at h
  · split at h
    · simp at h
    · split at h
      · simp at h
      · rename_i xml_file hfind
        split at h
        · simp at h
        · split at h
          · simp at h
          · obtain rfl : SuccessResponse.mk
                (if toLowerAscii xml_file = toL "factur-x.xml" then toL "Success"
                 else toL "XML is not Factur-x.xml")
                (joinComma (find_embedded_files doc)) _ xml_file = res := by simpa using h
            exact ⟨List.find?_some hfind, rfl⟩

/-- C10 witness: a success run on an uppercase `A.XML` entry: the filename
ends in `.xml` case-insensitively and the status is the non-canonical
string. -/
theorem C10_success_shape_witness :
    endsWithXml (SuccessResponse.mk (toL "XML is not Factur-x.xml") (toL "A.XML")
        (toL "z") (toL "A.XML")).xml_filename = true ∧
    (SuccessResponse.mk (toL "XML is not Factur-x.xml") (toL "A.XML")
        (toL "z") (toL "A.XML")).file_status =
      (if toLowerAscii (SuccessResponse.mk (toL "XML is not Factur-x.xml") (toL "A.XML")
          (toL "z") (toL "A.XML")).xml_filename = toL "factur-x.xml"
       then toL "Success" else toL "XML is not Factur-x.xml") :=
  C10_success_shape (toL "%PDF- /EmbeddedFiles /Names [(A.XML)]") (.ok [toL "z"])
    ⟨toL "XML is not Factur-x.xml", toL "A.XML", toL "z", toL "A.XML"⟩ (by decide)

/-- C6: for every signature-valid buffer whose single discovered embedded name
is `factur-x.xml`, when every decoded stream content fails the
`is_xml_content` check (as `Hello World` does), the lopdf carve-out yields no
candidate and the pipeline errors `ExtractionFailed` carrying the discovered
name list, a status distinct from the `NoXMLFile` absence error. -/
theorem C6_extraction_failed (doc : List Char) (streams : List (List Char))
    (hsig : doc.take 5 = toL "%PDF-")
    (hnames : find_embedded_files doc = [toL "factur-x.xml"])
    (hstreams : ∀ s ∈ streams, is_xml_content s = false) :
    process_pdf doc (.ok (carveout_xml_from_pdf streams)) =
      .error ⟨errExtractionFailed, some (toL "factur-x.xml")⟩ ∧
    errExtractionFailed ≠ errNoXMLFile := by
  have hfilter : carveout_xml_from_pdf streams = [] := by
    simp only [carveout_xml_from_pdf]
    exact List.filter_eq_nil_iff.2 (by intro s hs; simp [hstreams s hs])
  constructor
  · simp only [process_pdf, hnames, hfilter]
    rw [if_neg (sig_not_short hsig)]
    decide
  · decide

/-- C6 witness: a conformant buffer with the single entry `factur-x.xml` whose
only decoded stream content is `Hello World` errors `ExtractionFailed`
carrying that name. -/
theorem C6_extraction_failed_witness :
    process_pdf (toL "%PDF- <pdfaid:part>3</pdfaid:part> /EmbeddedFiles /Names [(factur-x.xml)]")
        (.ok (carveout_xml_from_pdf [toL "Hello World"])) =
      .error ⟨errExtractionFailed, some (toL "factur-x.xml")⟩ ∧
    errExtractionFailed ≠ errNoXMLFile :=
  C6_extraction_failed _ _ (by decide) (by decide) (by decide)

/-- C4 counterexample: a buffer whose `factur-x.xml` token is followed by a
well-formed `stream\n`...`endstream` region containing `Hello World`.  The
claim's reading of the stream extractor returns the trimmed bytes between the
keywords, but `extract_xml_content` returns `none`: the code additionally
requires the trimmed content to start with an XML prefix. -/
theorem C4_stream_gate_cex :
    extract_xml_content (toL "factur-x.xml stream\nHello World endstream") = none ∧
    extract_stream_claim (toL "factur-x.xml stream\nHello World endstream") =
      some (toL "Hello World") := by decide

/-- C4 amended: for every buffer, the byte-scanning stream extractor searches
a window of ±2000 bytes around the first occurrence of the literal token
`factur-x.xml`, finds the first `stream` keyword followed by `\n` inside the
window, then the nearest following `endstream`, and returns the
whitespace-trimmed bytes strictly between them only when they start with
`<?xml`, `<rsm:`, `<ubl:` or `<Invoice`; otherwise, or when any element is
absent, it returns `none`. -/
theorem C4_stream_pipeline (doc : List Char) :
    extract_xml_content doc =
      (extract_stream_claim doc).bind
        (fun t => if xmlGate t then some t else none) := by
  unfold extract_xml_content extract_stream_claim
  split
  · rfl
  · dsimp only
    split
    · rfl
    · split
      · rfl
      · split
        · rfl
        · split
          · rfl
          · split
            · rfl
            · rfl

/-- C5 counterexample: content starting with `<rdf:RDF` qualifies under the
claim's classifier, but the extractor rejects it: its gate has no `<rdf:RDF`
arm (and `pdf_worker::is_xml_content` tests containment of `<?xml` only). -/
theorem C5_rdf_cex :
    extract_xml_content (toL "factur-x.xml stream\n<rdf:RDF x> endstream") = none ∧
    looksLikeInvoiceXml_claim (toL "<rdf:RDF x>") = true := by decide

/-- C5 amended: every content surfaced by the byte-scanning extractor starts,
after trimming, with `<?xml`, `<rsm:`, `<ubl:` or `<Invoice`; `<rdf:RDF` is
not among the accepted root-element prefixes. -/
theorem C5_accepted_content (doc s : List Char)
    (h : extract_xml_content doc = some s) :
    (toL "<?xml").isPrefixOf s = true ∨ (toL "<rsm:").isPrefixOf s = true ∨
    (toL "<ubl:").isPrefixOf s = true ∨ (toL "<Invoice").isPrefixOf s = true := by
  unfold extract_xml_content at h
  split at h
  · simp at h
  · dsimp only at h
    split at h
    · simp at h
    · split at h
      · simp at h
      · split at h
        · simp at h
        · split at h
          · simp at h
          · split at h
            · simp at h
            · split at h
              · rename_i hg
                have hs := Option.some.inj h
                subst hs
                simpa [xmlGate, Bool.or_eq_true, or_assoc] using hg
              · simp at h

/-- C5 witness: a concrete surfaced content starts with the XML
declaration. -/
theorem C5_accepted_content_witness :
    (toL "<?xml").isPrefixOf (toL "<?xml a") = true ∨
    (toL "<rsm:").isPrefixOf (toL "<?xml a") = true ∨
    (toL "<ubl:").isPrefixOf (toL "<?xml a") = true ∨
    (toL "<Invoice").isPrefixOf (toL "<?xml a") = true :=
  C5_accepted_content (toL "factur-x.xml stream\n<?xml a endstream") (toL "<?xml a")
    (by decide)
